import Mathlib

/-!
Verification of the typed-value codec and event envelope structures of the
`aws_lambda_events_extended` library (files `dynamodb.rs` and `eventbridge.rs`).

The library defines plain data structures whose (de)serialization behaviour is
generated by serde derive macros over serde_json.  The embedding below models
the JSON value space, the derived deserializers (field dispatch, unknown-field
skipping, duplicate-field errors, missing-field errors in declaration order,
`Option` fields defaulting to `None`, `null` decoding to `None` for `Option`
payloads) and the derived serializers (declaration-order field emission with
`skip_serializing_if = "Option::is_none"`).

Representation choices:
  - JSON numbers are modelled as integers (`Int`); every document relevant to
    the claims has integer numeric payloads (`u8` byte values, `u64` sizes).
  - `bytes::Bytes` is modelled as `List Nat` of byte values; its serde
    instance serializes through `serialize_bytes` (a JSON array of numbers
    under serde_json) and deserializes through `deserialize_byte_buf`, which
    under serde_json accepts a JSON string (taking its raw UTF-8 bytes — no
    base64 transformation) or a JSON array of `u8`.
  - `HashMap<String, V>` is modelled as an association list built by repeated
    `insert` (replace the value in place when the key is present, append
    otherwise), which matches the last-occurrence-wins behaviour of
    `HashMap::insert` during deserialization of an object with duplicate keys.
  - `Vec<T>` is modelled as `List T`.
-/

/-- The JSON value space as produced by serde_json, with numbers restricted to
integers (sufficient for every payload the claims exercise). Object entries
keep the document's textual order and may repeat a key. -/
inductive Json where
  | null
  | bool (b : Bool)
  | num (n : Int)
  | str (s : String)
  | arr (elems : List Json)
  | obj (entries : List (String × Json))
deriving Repr

/-- The failure classes produced by the serde-derived deserializers:
`invalidType` (value of the wrong JSON type), `unknownVariant` (enum string
outside the declared variants), `duplicateField` (a struct field appearing
twice in one object), `missingField` (a required struct field absent). -/
inductive DecodeError where
  | invalidType (expected : String)
  | unknownVariant (got : String)
  | duplicateField (name : String)
  | missingField (name : String)
deriving DecidableEq, Repr

/-- `AttributeValue` from `dynamodb.rs`: a struct of ten independently
optional fields, one per DynamoDB attribute kind (serde names
B, BOOL, BS, L, M, N, NS, NULL, S, SS). -/
inductive AttributeValue where
  | mk
    (b : Option (List Nat))
    (bool : Option Bool)
    (bs : Option (List (List Nat)))
    (l : Option (List AttributeValue))
    (m : Option (List (String × AttributeValue)))
    (n : Option String)
    (ns : Option (List String))
    (null : Option Bool)
    (s : Option String)
    (ss : Option (List String))
deriving Repr

def AttributeValue.b : AttributeValue → Option (List Nat)
  | .mk x _ _ _ _ _ _ _ _ _ => x

def AttributeValue.bool : AttributeValue → Option Bool
  | .mk _ x _ _ _ _ _ _ _ _ => x

def AttributeValue.bs : AttributeValue → Option (List (List Nat))
  | .mk _ _ x _ _ _ _ _ _ _ => x

def AttributeValue.l : AttributeValue → Option (List AttributeValue)
  | .mk _ _ _ x _ _ _ _ _ _ => x

def AttributeValue.m : AttributeValue → Option (List (String × AttributeValue))
  | .mk _ _ _ _ x _ _ _ _ _ => x

def AttributeValue.n : AttributeValue → Option String
  | .mk _ _ _ _ _ x _ _ _ _ => x

def AttributeValue.ns : AttributeValue → Option (List String)
  | .mk _ _ _ _ _ _ x _ _ _ => x

def AttributeValue.null : AttributeValue → Option Bool
  | .mk _ _ _ _ _ _ _ x _ _ => x

def AttributeValue.s : AttributeValue → Option String
  | .mk _ _ _ _ _ _ _ _ x _ => x

def AttributeValue.ss : AttributeValue → Option (List String)
  | .mk _ _ _ _ _ _ _ _ _ x => x

/-- The `Default` derive on `AttributeValue`: every field `None`. -/
def AttributeValue.default : AttributeValue :=
  .mk none none none none none none none none none none

/-- Deserialize a `String`: only a JSON string is accepted. -/
def decodeString : Json → Except DecodeError String
  | .str s => .ok s
  | _ => .error (.invalidType "a string")

/-- Deserialize a `bool`: only a JSON boolean is accepted. -/
def decodeBool : Json → Except DecodeError Bool
  | .bool b => .ok b
  | _ => .error (.invalidType "a boolean")

/-- Deserialize a `u8`: a JSON number in `[0, 255]`. -/
def decodeU8 : Json → Except DecodeError Nat
  | .num n => if 0 ≤ n ∧ n < 256 then .ok n.toNat else .error (.invalidType "u8")
  | _ => .error (.invalidType "u8")

/-- Deserialize a `u64`: a JSON number in `[0, 2^64)`. -/
def decodeU64 : Json → Except DecodeError Nat
  | .num n => if 0 ≤ n ∧ n < 2 ^ 64 then .ok n.toNat else .error (.invalidType "u64")
  | _ => .error (.invalidType "u64")

/-- Deserialize an `f64` field: any JSON number (restricted here to the
integer-valued numbers the `Json` model carries). -/
def decodeF64 : Json → Except DecodeError Int
  | .num n => .ok n
  | _ => .error (.invalidType "f64")

/-- UTF-8 encoding of a single character, as the byte list Rust's
`str::as_bytes` exposes for it. -/
def utf8Char (c : Char) : List Nat :=
  let n := c.toNat
  if n < 0x80 then [n]
  else if n < 0x800 then [0xC0 ||| (n >>> 6), 0x80 ||| (n &&& 0x3F)]
  else if n < 0x10000 then
    [0xE0 ||| (n >>> 12), 0x80 ||| ((n >>> 6) &&& 0x3F), 0x80 ||| (n &&& 0x3F)]
  else
    [0xF0 ||| (n >>> 18), 0x80 ||| ((n >>> 12) &&& 0x3F),
     0x80 ||| ((n >>> 6) &&& 0x3F), 0x80 ||| (n &&& 0x3F)]

/-- UTF-8 encoding of a string (Rust's `str::as_bytes`). -/
def utf8Bytes (s : String) : List Nat :=
  s.data.foldr (fun c acc => utf8Char c ++ acc) []

/-- Deserialize the elements of a JSON array as `u8` values. -/
def decodeU8List : List Json → Except DecodeError (List Nat)
  | [] => .ok []
  | e :: rest => do
    let x ← decodeU8 e
    let xs ← decodeU8List rest
    .ok (x :: xs)

/-- Deserialize `bytes::Bytes` under serde_json (`deserialize_byte_buf`): a
JSON string yields its raw UTF-8 bytes verbatim (no base64 interpretation),
a JSON array yields its elements read as `u8`; anything else is a type
error. -/
def decodeBytes : Json → Except DecodeError (List Nat)
  | .str s => .ok (utf8Bytes s)
  | .arr es => decodeU8List es
  | _ => .error (.invalidType "byte data")

/-- Deserialize `Vec<bytes::Bytes>`. -/
def decodeBytesList : Json → Except DecodeError (List (List Nat))
  | .arr es => go es
  | _ => .error (.invalidType "a sequence")
where
  go : List Json → Except DecodeError (List (List Nat))
    | [] => .ok []
    | e :: rest => do
      let x ← decodeBytes e
      let xs ← go rest
      .ok (x :: xs)

/-- Deserialize `Vec<String>`. -/
def decodeStringList : Json → Except DecodeError (List String)
  | .arr es => go es
  | _ => .error (.invalidType "a sequence")
where
  go : List Json → Except DecodeError (List String)
    | [] => .ok []
    | e :: rest => do
      let x ← decodeString e
      let xs ← go rest
      .ok (x :: xs)

/-- Deserialize `Option<T>` from a field value: JSON `null` is `None`, any
other value is decoded by the inner deserializer. -/
def decodeOpt (d : Json → Except DecodeError α) : Json → Except DecodeError (Option α)
  | .null => .ok none
  | j => (d j).map some

/-- `HashMap::insert` on the association-list model: replace the value in
place when the key is already bound, append otherwise. -/
def insertAssoc : List (String × α) → String → α → List (String × α)
  | [], k, v => [(k, v)]
  | (k', v') :: rest, k, v =>
    if k' = k then (k', v) :: rest else (k', v') :: insertAssoc rest k v

/-- Lookup in the association-list model of `HashMap` (`HashMap::get`). -/
def lookupAssoc : List (String × α) → String → Option α
  | [], _ => none
  | (k0, v) :: rest, k => if k0 = k then some v else lookupAssoc rest k

/-- The value of the last occurrence of a key among a JSON object's entries
(`none` when the key never occurs). -/
def lastBinding : List (String × Json) → String → Option Json
  | [], _ => none
  | (k0, j0) :: rest, k =>
    match lastBinding rest k with
    | some j => some j
    | none => if k0 = k then some j0 else none

/-- Whether the association-list model of `HashMap` binds a key. -/
def hasKey (l : List (String × α)) (k : String) : Bool :=
  l.any (fun kv => kv.1 = k)

mutual
/-- The serde-derived deserializer for `AttributeValue`: a JSON object is
scanned entry by entry; recognized field names fill their slot (a repeat is a
`duplicateField` error), unrecognized names are skipped; at the end every
unfilled `Option` field becomes `None`. Anything but an object is a type
error. -/
def decodeAV : Json → Except DecodeError AttributeValue
  | .obj entries => decodeAVFields entries none none none none none none none none none none
  | _ => .error (.invalidType "struct AttributeValue")

/-- Entry-by-entry field dispatch of the derived `AttributeValue`
deserializer; one accumulator slot per serde field name, `some` once the
field has been seen. -/
def decodeAVFields : List (String × Json) →
    Option (Option (List Nat)) → Option (Option Bool) → Option (Option (List (List Nat))) →
    Option (Option (List AttributeValue)) → Option (Option (List (String × AttributeValue))) →
    Option (Option String) → Option (Option (List String)) → Option (Option Bool) →
    Option (Option String) → Option (Option (List String)) →
    Except DecodeError AttributeValue
  | [], sB, sBOOL, sBS, sL, sM, sN, sNS, sNULL, sS, sSS =>
    .ok (.mk (sB.getD none) (sBOOL.getD none) (sBS.getD none) (sL.getD none) (sM.getD none)
             (sN.getD none) (sNS.getD none) (sNULL.getD none) (sS.getD none) (sSS.getD none))
  | (k, v) :: rest, sB, sBOOL, sBS, sL, sM, sN, sNS, sNULL, sS, sSS =>
    if k = "B" then
      match sB with
      | some _ => .error (.duplicateField "B")
      | none => do
        let x ← decodeOpt decodeBytes v
        decodeAVFields rest (some x) sBOOL sBS sL sM sN sNS sNULL sS sSS
    else if k = "BOOL" then
      match sBOOL with
      | some _ => .error (.duplicateField "BOOL")
      | none => do
        let x ← decodeOpt decodeBool v
        decodeAVFields rest sB (some x) sBS sL sM sN sNS sNULL sS sSS
    else if k = "BS" then
      match sBS with
      | some _ => .error (.duplicateField "BS")
      | none => do
        let x ← decodeOpt decodeBytesList v
        decodeAVFields rest sB sBOOL (some x) sL sM sN sNS sNULL sS sSS
    else if k = "L" then
      match sL with
      | some _ => .error (.duplicateField "L")
      | none => do
        let x ← match v with
                | .null => pure none
                | j => (decodeAVList j).map some
        decodeAVFields rest sB sBOOL sBS (some x) sM sN sNS sNULL sS sSS
    else if k = "M" then
      match sM with
      | some _ => .error (.duplicateField "M")
      | none => do
        let x ← match v with
                | .null => pure none
                | j => (decodeAVMap j).map some
        decodeAVFields rest sB sBOOL sBS sL (some x) sN sNS sNULL sS sSS
    else if k = "N" then
      match sN with
      | some _ => .error (.duplicateField "N")
      | none => do
        let x ← decodeOpt decodeString v
        decodeAVFields rest sB sBOOL sBS sL sM (some x) sNS sNULL sS sSS
    else if k = "NS" then
      match sNS with
      | some _ => .error (.duplicateField "NS")
      | none => do
        let x ← decodeOpt decodeStringList v
        decodeAVFields rest sB sBOOL sBS sL sM sN (some x) sNULL sS sSS
    else if k = "NULL" then
      match sNULL with
      | some _ => .error (.duplicateField "NULL")
      | none => do
        let x ← decodeOpt decodeBool v
        decodeAVFields rest sB sBOOL sBS sL sM sN sNS (some x) sS sSS
    else if k = "S" then
      match sS with
      | some _ => .error (.duplicateField "S")
      | none => do
        let x ← decodeOpt decodeString v
        decodeAVFields rest sB sBOOL sBS sL sM sN sNS sNULL (some x) sSS
    else if k = "SS" then
      match sSS with
      | some _ => .error (.duplicateField "SS")
      | none => do
        let x ← decodeOpt decodeStringList v
        decodeAVFields rest sB sBOOL sBS sL sM sN sNS sNULL sS (some x)
    else
      decodeAVFields rest sB sBOOL sBS sL sM sN sNS sNULL sS sSS

/-- Deserialize `Vec<AttributeValue>`: a JSON array decoded element-wise. -/
def decodeAVList : Json → Except DecodeError (List AttributeValue)
  | .arr es => decodeAVElems es
  | _ => .error (.invalidType "a sequence")

/-- Element-wise decoding of a `Vec<AttributeValue>` payload; the first
failing element aborts. -/
def decodeAVElems : List Json → Except DecodeError (List AttributeValue)
  | [] => .ok []
  | e :: rest => do
    let a ← decodeAV e
    let as ← decodeAVElems rest
    .ok (a :: as)

/-- Deserialize `HashMap<String, AttributeValue>`: a JSON object whose
entries are inserted one by one (so a repeated attribute name keeps the last
occurrence, as `HashMap::insert` overwrites). -/
def decodeAVMap : Json → Except DecodeError (List (String × AttributeValue))
  | .obj kvs => decodeAVMapEntries kvs []
  | _ => .error (.invalidType "a map")

/-- Entry-by-entry decoding of a `HashMap<String, AttributeValue>` payload
into the accumulated association list. -/
def decodeAVMapEntries : List (String × Json) → List (String × AttributeValue) →
    Except DecodeError (List (String × AttributeValue))
  | [], acc => .ok acc
  | (k, v) :: rest, acc => do
    let a ← decodeAV v
    decodeAVMapEntries rest (insertAssoc acc k a)
end

mutual
/-- The serde-derived serializer for `AttributeValue`: fields are emitted in
declaration order (B, BOOL, BS, L, M, N, NS, NULL, S, SS) and a `None` field
is skipped entirely (`skip_serializing_if = "Option::is_none"`).
`bytes::Bytes` serializes through `serialize_bytes`, which serde_json renders
as a JSON array of byte numbers. -/
def encodeAV : AttributeValue → Json
  | .mk b bo bs l m n ns nl s ss =>
    Json.obj (
      (match b with
       | none => []
       | some xs => [("B", Json.arr (xs.map (fun x => Json.num (Int.ofNat x))))]) ++
      (match bo with | none => [] | some v => [("BOOL", Json.bool v)]) ++
      (match bs with
       | none => []
       | some xss =>
         [("BS", Json.arr (xss.map (fun xs => Json.arr (xs.map (fun x => Json.num (Int.ofNat x))))))]) ++
      (match l with | none => [] | some xs => [("L", Json.arr (encodeAVElems xs))]) ++
      (match m with | none => [] | some kvs => [("M", Json.obj (encodeAVEntries kvs))]) ++
      (match n with | none => [] | some t => [("N", Json.str t)]) ++
      (match ns with | none => [] | some ts => [("NS", Json.arr (ts.map Json.str))]) ++
      (match nl with | none => [] | some v => [("NULL", Json.bool v)]) ++
      (match s with | none => [] | some t => [("S", Json.str t)]) ++
      (match ss with | none => [] | some ts => [("SS", Json.arr (ts.map Json.str))]))

/-- Element-wise serialization of a `Vec<AttributeValue>`. -/
def encodeAVElems : List AttributeValue → List Json
  | [] => []
  | a :: rest => encodeAV a :: encodeAVElems rest

/-- Entry-wise serialization of a `HashMap<String, AttributeValue>` (in the
association list's stored order). -/
def encodeAVEntries : List (String × AttributeValue) → List (String × Json)
  | [] => []
  | (k, a) :: rest => (k, encodeAV a) :: encodeAVEntries rest
end

/-- Byte values fit in `u8`. -/
def bytesWF (xs : List Nat) : Bool :=
  xs.all (fun x => x < 256)

/-- No key occurs twice in the association-list model of a `HashMap` (true of
every actual `HashMap`). -/
def nodupKeys : List (String × α) → Bool
  | [] => true
  | (k, _) :: rest => !(rest.any (fun kv => kv.1 = k)) && nodupKeys rest

/-- Well-formed `AttributeValue`: exactly one of the variant fields is
populated, byte payloads are `u8`-valued, map payloads bind each attribute
name at most once (as every value of Rust type `HashMap` does), and List/Map
payloads nest only well-formed values, to arbitrary finite depth. -/
inductive WFAV : AttributeValue → Prop where
  | binary (xs : List Nat) (hb : bytesWF xs = true) :
      WFAV (.mk (some xs) none none none none none none none none none)
  | boolean (v : Bool) :
      WFAV (.mk none (some v) none none none none none none none none)
  | binarySet (xss : List (List Nat)) (hb : xss.all bytesWF = true) :
      WFAV (.mk none none (some xss) none none none none none none none)
  | list (xs : List AttributeValue) (h : ∀ a ∈ xs, WFAV a) :
      WFAV (.mk none none none (some xs) none none none none none none)
  | map (kvs : List (String × AttributeValue)) (hk : nodupKeys kvs = true)
      (h : ∀ kv ∈ kvs, WFAV kv.2) :
      WFAV (.mk none none none none (some kvs) none none none none none)
  | number (t : String) :
      WFAV (.mk none none none none none (some t) none none none none)
  | numberSet (ts : List String) :
      WFAV (.mk none none none none none none (some ts) none none none)
  | nullval (v : Bool) :
      WFAV (.mk none none none none none none none (some v) none none)
  | stringval (t : String) :
      WFAV (.mk none none none none none none none none (some t) none)
  | stringSet (ts : List String) :
      WFAV (.mk none none none none none none none none none (some ts))

/-- `DynamoDBOperationType` from `dynamodb.rs`: the closed operation-kind
enum (serde names INSERT, MODIFY, REMOVE via `rename_all = "UPPERCASE"`). -/
inductive DynamoDBOperationType where
  | insert
  | modify
  | remove
deriving DecidableEq, Repr

/-- The serde-derived deserializer for `DynamoDBOperationType`: a JSON string
matching one of the three declared variant names; any other string is an
unknown-variant error, any non-string a type error. -/
def decodeOperationType : Json → Except DecodeError DynamoDBOperationType
  | .str s =>
    if s = "INSERT" then .ok .insert
    else if s = "MODIFY" then .ok .modify
    else if s = "REMOVE" then .ok .remove
    else .error (.unknownVariant s)
  | _ => .error (.invalidType "a string")

/-- `DynamoDBUserIdentity` from `dynamodb.rs`. -/
structure DynamoDBUserIdentity where
  type : String
  principal_id : String
deriving DecidableEq, Repr

/-- Entry dispatch of the derived `DynamoDBUserIdentity` deserializer
(serde names `type`, `principalId`). -/
def decodeUserIdentityFields : List (String × Json) →
    Option String → Option String → Except DecodeError DynamoDBUserIdentity
  | [], sType, sPid =>
    match sType with
    | none => .error (.missingField "type")
    | some t =>
      match sPid with
      | none => .error (.missingField "principalId")
      | some p => .ok ⟨t, p⟩
  | (k, v) :: rest, sType, sPid =>
    if k = "type" then
      match sType with
      | some _ => .error (.duplicateField "type")
      | none => do
        let x ← decodeString v
        decodeUserIdentityFields rest (some x) sPid
    else if k = "principalId" then
      match sPid with
      | some _ => .error (.duplicateField "principalId")
      | none => do
        let x ← decodeString v
        decodeUserIdentityFields rest sType (some x)
    else
      decodeUserIdentityFields rest sType sPid

/-- The serde-derived deserializer for `DynamoDBUserIdentity`. -/
def decodeUserIdentity : Json → Except DecodeError DynamoDBUserIdentity
  | .obj entries => decodeUserIdentityFields entries none none
  | _ => .error (.invalidType "struct DynamoDBUserIdentity")

/-- `DynamoDBStreamRecord` from `dynamodb.rs`: the `dynamodb` body of a
stream record (the `f64` creation timestamp is carried as the integer the
`Json` model supports). -/
structure DynamoDBStreamRecord where
  approximate_creation_date_time : Option Int
  keys : Option (List (String × AttributeValue))
  new_image : Option (List (String × AttributeValue))
  old_image : Option (List (String × AttributeValue))
  sequence_number : String
  size_bytes : Nat
  stream_view_type : String
deriving Repr

/-- Entry dispatch of the derived `DynamoDBStreamRecord` deserializer (serde
names `ApproximateCreationDateTime`, `Keys`, `NewImage`, `OldImage`,
`SequenceNumber`, `SizeBytes`, `StreamViewType`); missing required fields are
reported in declaration order once all entries are consumed. -/
def decodeStreamRecordFields : List (String × Json) →
    Option (Option Int) →
    Option (Option (List (String × AttributeValue))) →
    Option (Option (List (String × AttributeValue))) →
    Option (Option (List (String × AttributeValue))) →
    Option String → Option Nat → Option String →
    Except DecodeError DynamoDBStreamRecord
  | [], sACDT, sKeys, sNew, sOld, sSeq, sSize, sSVT =>
    match sSeq with
    | none => .error (.missingField "SequenceNumber")
    | some seq =>
      match sSize with
      | none => .error (.missingField "SizeBytes")
      | some size =>
        match sSVT with
        | none => .error (.missingField "StreamViewType")
        | some svt =>
          .ok ⟨sACDT.getD none, sKeys.getD none, sNew.getD none, sOld.getD none, seq, size, svt⟩
  | (k, v) :: rest, sACDT, sKeys, sNew, sOld, sSeq, sSize, sSVT =>
    if k = "ApproximateCreationDateTime" then
      match sACDT with
      | some _ => .error (.duplicateField "ApproximateCreationDateTime")
      | none => do
        let x ← decodeOpt decodeF64 v
        decodeStreamRecordFields rest (some x) sKeys sNew sOld sSeq sSize sSVT
    else if k = "Keys" then
      match sKeys with
      | some _ => .error (.duplicateField "Keys")
      | none => do
        let x ← decodeOpt decodeAVMap v
        decodeStreamRecordFields rest sACDT (some x) sNew sOld sSeq sSize sSVT
    else if k = "NewImage" then
      match sNew with
      | some _ => .error (.duplicateField "NewImage")
      | none => do
        let x ← decodeOpt decodeAVMap v
        decodeStreamRecordFields rest sACDT sKeys (some x) sOld sSeq sSize sSVT
    else if k = "OldImage" then
      match sOld with
      | some _ => .error (.duplicateField "OldImage")
      | none => do
        let x ← decodeOpt decodeAVMap v
        decodeStreamRecordFields rest sACDT sKeys sNew (some x) sSeq sSize sSVT
    else if k = "SequenceNumber" then
      match sSeq with
      | some _ => .error (.duplicateField "SequenceNumber")
      | none => do
        let x ← decodeString v
        decodeStreamRecordFields rest sACDT sKeys sNew sOld (some x) sSize sSVT
    else if k = "SizeBytes" then
      match sSize with
      | some _ => .error (.duplicateField "SizeBytes")
      | none => do
        let x ← decodeU64 v
        decodeStreamRecordFields rest sACDT sKeys sNew sOld sSeq (some x) sSVT
    else if k = "StreamViewType" then
      match sSVT with
      | some _ => .error (.duplicateField "StreamViewType")
      | none => do
        let x ← decodeString v
        decodeStreamRecordFields rest sACDT sKeys sNew sOld sSeq sSize (some x)
    else
      decodeStreamRecordFields rest sACDT sKeys sNew sOld sSeq sSize sSVT

/-- The serde-derived deserializer for `DynamoDBStreamRecord`. -/
def decodeStreamRecord : Json → Except DecodeError DynamoDBStreamRecord
  | .obj entries => decodeStreamRecordFields entries none none none none none none none
  | _ => .error (.invalidType "struct DynamoDBStreamRecord")

/-- `DynamoDBEventRecord` from `dynamodb.rs`. -/
structure DynamoDBEventRecord where
  aws_region : String
  dynamodb : DynamoDBStreamRecord
  event_id : String
  event_name : DynamoDBOperationType
  event_source : String
  event_version : String
  event_source_arn : String
  user_identity : Option DynamoDBUserIdentity
deriving Repr

/-- Entry dispatch of the derived `DynamoDBEventRecord` deserializer (serde
names `awsRegion`, `dynamodb`, `eventID`, `eventName`, `eventSource`,
`eventVersion`, `eventSourceARN`, `userIdentity`); missing required fields
are reported in declaration order once all entries are consumed. -/
def decodeEventRecordFields : List (String × Json) →
    Option String → Option DynamoDBStreamRecord → Option String →
    Option DynamoDBOperationType → Option String → Option String → Option String →
    Option (Option DynamoDBUserIdentity) →
    Except DecodeError DynamoDBEventRecord
  | [], sRegion, sDdb, sEid, sEname, sEsrc, sEver, sEarn, sUid =>
    match sRegion with
    | none => .error (.missingField "awsRegion")
    | some region =>
      match sDdb with
      | none => .error (.missingField "dynamodb")
      | some ddb =>
        match sEid with
        | none => .error (.missingField "eventID")
        | some eid =>
          match sEname with
          | none => .error (.missingField "eventName")
          | some ename =>
            match sEsrc with
            | none => .error (.missingField "eventSource")
            | some esrc =>
              match sEver with
              | none => .error (.missingField "eventVersion")
              | some ever =>
                match sEarn with
                | none => .error (.missingField "eventSourceARN")
                | some earn =>
                  .ok ⟨region, ddb, eid, ename, esrc, ever, earn, sUid.getD none⟩
  | (k, v) :: rest, sRegion, sDdb, sEid, sEname, sEsrc, sEver, sEarn, sUid =>
    if k = "awsRegion" then
      match sRegion with
      | some _ => .error (.duplicateField "awsRegion")
      | none => do
        let x ← decodeString v
        decodeEventRecordFields rest (some x) sDdb sEid sEname sEsrc sEver sEarn sUid
    else if k = "dynamodb" then
      match sDdb with
      | some _ => .error (.duplicateField "dynamodb")
      | none => do
        let x ← decodeStreamRecord v
        decodeEventRecordFields rest sRegion (some x) sEid sEname sEsrc sEver sEarn sUid
    else if k = "eventID" then
      match sEid with
      | some _ => .error (.duplicateField "eventID")
      | none => do
        let x ← decodeString v
        decodeEventRecordFields rest sRegion sDdb (some x) sEname sEsrc sEver sEarn sUid
    else if k = "eventName" then
      match sEname with
      | some _ => .error (.duplicateField "eventName")
      | none => do
        let x ← decodeOperationType v
        decodeEventRecordFields rest sRegion sDdb sEid (some x) sEsrc sEver sEarn sUid
    else if k = "eventSource" then
      match sEsrc with
      | some _ => .error (.duplicateField "eventSource")
      | none => do
        let x ← decodeString v
        decodeEventRecordFields rest sRegion sDdb sEid sEname (some x) sEver sEarn sUid
    else if k = "eventVersion" then
      match sEver with
      | some _ => .error (.duplicateField "eventVersion")
      | none => do
        let x ← decodeString v
        decodeEventRecordFields rest sRegion sDdb sEid sEname sEsrc (some x) sEarn sUid
    else if k = "eventSourceARN" then
      match sEarn with
      | some _ => .error (.duplicateField "eventSourceARN")
      | none => do
        let x ← decodeString v
        decodeEventRecordFields rest sRegion sDdb sEid sEname sEsrc sEver (some x) sUid
    else if k = "userIdentity" then
      match sUid with
      | some _ => .error (.duplicateField "userIdentity")
      | none => do
        let x ← decodeOpt decodeUserIdentity v
        decodeEventRecordFields rest sRegion sDdb sEid sEname sEsrc sEver sEarn (some x)
    else
      decodeEventRecordFields rest sRegion sDdb sEid sEname sEsrc sEver sEarn sUid

/-- The serde-derived deserializer for `DynamoDBEventRecord`. -/
def decodeEventRecord : Json → Except DecodeError DynamoDBEventRecord
  | .obj entries => decodeEventRecordFields entries none none none none none none none none
  | _ => .error (.invalidType "struct DynamoDBEventRecord")

/-- `EventBridgeEvent<T>` from `eventbridge.rs`: the routed-envelope record,
generic over the caller-chosen detail payload type. -/
structure EventBridgeEvent (T : Type) where
  id : String
  version : String
  account : String
  time : String
  region : String
  resources : List String
  source : String
  detail_type : String
  detail : T
deriving DecidableEq, Repr

/-- Entry dispatch of the derived `EventBridgeEvent<T>` deserializer (serde
names `id`, `version`, `account`, `time`, `region`, `resources`, `source`,
`detail-type`, `detail`); the detail payload is decoded by the caller-chosen
deserializer `dT`. -/
def decodeEventBridgeFields (dT : Json → Except DecodeError T) :
    List (String × Json) →
    Option String → Option String → Option String → Option String → Option String →
    Option (List String) → Option String → Option String → Option T →
    Except DecodeError (EventBridgeEvent T)
  | [], sId, sVer, sAcc, sTime, sReg, sRes, sSrc, sDty, sDet =>
    match sId with
    | none => .error (.missingField "id")
    | some i =>
      match sVer with
      | none => .error (.missingField "version")
      | some ver =>
        match sAcc with
        | none => .error (.missingField "account")
        | some acc =>
          match sTime with
          | none => .error (.missingField "time")
          | some tm =>
            match sReg with
            | none => .error (.missingField "region")
            | some reg =>
              match sRes with
              | none => .error (.missingField "resources")
              | some res =>
                match sSrc with
                | none => .error (.missingField "source")
                | some src =>
                  match sDty with
                  | none => .error (.missingField "detail-type")
                  | some dty =>
                    match sDet with
                    | none => .error (.missingField "detail")
                    | some det => .ok ⟨i, ver, acc, tm, reg, res, src, dty, det⟩
  | (k, v) :: rest, sId, sVer, sAcc, sTime, sReg, sRes, sSrc, sDty, sDet =>
    if k = "id" then
      match sId with
      | some _ => .error (.duplicateField "id")
      | none => do
        let x ← decodeString v
        decodeEventBridgeFields dT rest (some x) sVer sAcc sTime sReg sRes sSrc sDty sDet
    else if k = "version" then
      match sVer with
      | some _ => .error (.duplicateField "version")
      | none => do
        let x ← decodeString v
        decodeEventBridgeFields dT rest sId (some x) sAcc sTime sReg sRes sSrc sDty sDet
    else if k = "account" then
      match sAcc with
      | some _ => .error (.duplicateField "account")
      | none => do
        let x ← decodeString v
        decodeEventBridgeFields dT rest sId sVer (some x) sTime sReg sRes sSrc sDty sDet
    else if k = "time" then
      match sTime with
      | some _ => .error (.duplicateField "time")
      | none => do
        let x ← decodeString v
        decodeEventBridgeFields dT rest sId sVer sAcc (some x) sReg sRes sSrc sDty sDet
    else if k = "region" then
      match sReg with
      | some _ => .error (.duplicateField "region")
      | none => do
        let x ← decodeString v
        decodeEventBridgeFields dT rest sId sVer sAcc sTime (some x) sRes sSrc sDty sDet
    else if k = "resources" then
      match sRes with
      | some _ => .error (.duplicateField "resources")
      | none => do
        let x ← decodeStringList v
        decodeEventBridgeFields dT rest sId sVer sAcc sTime sReg (some x) sSrc sDty sDet
    else if k = "source" then
      match sSrc with
      | some _ => .error (.duplicateField "source")
      | none => do
        let x ← decodeString v
        decodeEventBridgeFields dT rest sId sVer sAcc sTime sReg sRes (some x) sDty sDet
    else if k = "detail-type" then
      match sDty with
      | some _ => .error (.duplicateField "detail-type")
      | none => do
        let x ← decodeString v
        decodeEventBridgeFields dT rest sId sVer sAcc sTime sReg sRes sSrc (some x) sDet
    else if k = "detail" then
      match sDet with
      | some _ => .error (.duplicateField "detail")
      | none => do
        let x ← dT v
        decodeEventBridgeFields dT rest sId sVer sAcc sTime sReg sRes sSrc sDty (some x)
    else
      decodeEventBridgeFields dT rest sId sVer sAcc sTime sReg sRes sSrc sDty sDet

/-- The serde-derived deserializer for `EventBridgeEvent<T>`, parameterized
by the detail-payload deserializer. -/
def decodeEventBridge (dT : Json → Except DecodeError T) :
    Json → Except DecodeError (EventBridgeEvent T)
  | .obj entries => decodeEventBridgeFields dT entries none none none none none none none none none
  | _ => .error (.invalidType "struct EventBridgeEvent")

/-- `EC2StateChangeDetail` from the `eventbridge.rs` test module: the
two-field detail record the routed-envelope fixture is decoded with. -/
structure EC2StateChangeDetail where
  instance_id : String
  state : String
deriving DecidableEq, Repr

/-- Entry dispatch of the derived `EC2StateChangeDetail` deserializer (serde
names `instance-id`, `state`). -/
def decodeEC2DetailFields : List (String × Json) →
    Option String → Option String → Except DecodeError EC2StateChangeDetail
  | [], sIid, sState =>
    match sIid with
    | none => .error (.missingField "instance-id")
    | some iid =>
      match sState with
      | none => .error (.missingField "state")
      | some st => .ok ⟨iid, st⟩
  | (k, v) :: rest, sIid, sState =>
    if k = "instance-id" then
      match sIid with
      | some _ => .error (.duplicateField "instance-id")
      | none => do
        let x ← decodeString v
        decodeEC2DetailFields rest (some x) sState
    else if k = "state" then
      match sState with
      | some _ => .error (.duplicateField "state")
      | none => do
        let x ← decodeString v
        decodeEC2DetailFields rest sIid (some x)
    else
      decodeEC2DetailFields rest sIid sState

/-- The serde-derived deserializer for `EC2StateChangeDetail`. -/
def decodeEC2Detail : Json → Except DecodeError EC2StateChangeDetail
  | .obj entries => decodeEC2DetailFields entries none none
  | _ => .error (.invalidType "struct EC2StateChangeDetail")

/-- The routed-envelope fixture document of scenario B
(`example-event-bridge-event.json`): the EC2 instance state-change sample
event, with the field values the repository's test asserts. -/
def eventBridgeFixture : Json :=
  Json.obj [
    ("version", Json.str "0"),
    ("id", Json.str "6a7e8feb-b491-4cf7-a9f1-bf3703467718"),
    ("detail-type", Json.str "EC2 Instance State-change Notification"),
    ("source", Json.str "aws.ec2"),
    ("account", Json.str "123456789012"),
    ("time", Json.str "2017-12-22T18:43:48Z"),
    ("region", Json.str "us-west-1"),
    ("resources",
      Json.arr [Json.str "arn:aws:ec2:us-west-1:123456789012:instance/i-1234567890abcdef0"]),
    ("detail",
      Json.obj [("instance-id", Json.str "i-1234567890abcdef0"),
                ("state", Json.str "terminated")])]

theorem exceptBind_ok (a : α) (f : α → Except ε β) :
    (Except.ok a >>= f : Except ε β) = f a := rfl

theorem exceptBind_error (e : ε) (f : α → Except ε β) :
    ((Except.error e : Except ε α) >>= f) = .error e := rfl

theorem exceptMap_ok (f : α → β) (a : α) :
    Except.map f (.ok a : Except ε α) = .ok (f a) := rfl

theorem decodeAV_B_arr (es : List Json) (xs : List Nat) (h : decodeU8List es = .ok xs) :
    decodeAV (Json.obj [("B", Json.arr es)]) =
      .ok (.mk (some xs) none none none none none none none none none) := by
  rw [show decodeAV (Json.obj [("B", Json.arr es)]) =
        (decodeU8List es).map some >>= fun x =>
          decodeAVFields [] (some x) none none none none none none none none none from rfl,
      h]
  rfl

theorem decodeAV_BS_arr (es : List Json) (xss : List (List Nat))
    (h : decodeBytesList.go es = .ok xss) :
    decodeAV (Json.obj [("BS", Json.arr es)]) =
      .ok (.mk none none (some xss) none none none none none none none) := by
  rw [show decodeAV (Json.obj [("BS", Json.arr es)]) =
        (decodeBytesList.go es).map some >>= fun x =>
          decodeAVFields [] none none (some x) none none none none none none none from rfl,
      h]
  rfl

theorem decodeAV_L_arr (es : List Json) (xs : List AttributeValue)
    (h : decodeAVElems es = .ok xs) :
    decodeAV (Json.obj [("L", Json.arr es)]) =
      .ok (.mk none none none (some xs) none none none none none none) := by
  rw [show decodeAV (Json.obj [("L", Json.arr es)]) =
        (decodeAVElems es).map some >>= fun x =>
          decodeAVFields [] none none none (some x) none none none none none none from rfl,
      h]
  rfl

theorem decodeAV_M_obj (es : List (String × Json)) (kvs : List (String × AttributeValue))
    (h : decodeAVMapEntries es [] = .ok kvs) :
    decodeAV (Json.obj [("M", Json.obj es)]) =
      .ok (.mk none none none none (some kvs) none none none none none) := by
  rw [show decodeAV (Json.obj [("M", Json.obj es)]) =
        (decodeAVMapEntries es []).map some >>= fun x =>
          decodeAVFields [] none none none none (some x) none none none none none from rfl,
      h]
  rfl

theorem decodeAV_NS_arr (es : List Json) (ts : List String)
    (h : decodeStringList.go es = .ok ts) :
    decodeAV (Json.obj [("NS", Json.arr es)]) =
      .ok (.mk none none none none none none (some ts) none none none) := by
  rw [show decodeAV (Json.obj [("NS", Json.arr es)]) =
        (decodeStringList.go es).map some >>= fun x =>
          decodeAVFields [] none none none none none none (some x) none none none from rfl,
      h]
  rfl

theorem decodeAV_SS_arr (es : List Json) (ts : List String)
    (h : decodeStringList.go es = .ok ts) :
    decodeAV (Json.obj [("SS", Json.arr es)]) =
      .ok (.mk none none none none none none none none none (some ts)) := by
  rw [show decodeAV (Json.obj [("SS", Json.arr es)]) =
        (decodeStringList.go es).map some >>= fun x =>
          decodeAVFields [] none none none none none none none none none (some x) from rfl,
      h]
  rfl

theorem insertAssoc_not_hasKey (acc : List (String × α)) (k : String) (a : α)
    (h : hasKey acc k = false) : insertAssoc acc k a = acc ++ [(k, a)] := by
  induction acc with
  | nil => rfl
  | cons kv rest ih =>
    obtain ⟨k', v'⟩ := kv
    simp only [hasKey, List.any_cons, Bool.or_eq_false_iff, decide_eq_false_iff_not] at h
    simp only [insertAssoc, if_neg h.1, List.cons_append, List.cons.injEq, true_and]
    exact ih h.2

theorem decodeU8List_enc (xs : List Nat) (h : bytesWF xs = true) :
    decodeU8List (xs.map fun x => Json.num (Int.ofNat x)) = .ok xs := by
  induction xs with
  | nil => rfl
  | cons x rest ih =>
    simp only [bytesWF, List.all_cons, Bool.and_eq_true, decide_eq_true_eq] at h
    have hx : (0 : Int) ≤ Int.ofNat x ∧ Int.ofNat x < 256 :=
      ⟨Int.ofNat_nonneg x, Int.ofNat_lt.mpr h.1⟩
    have ih' := ih h.2
    rw [List.map_cons]
    simp only [decodeU8List]
    rw [show decodeU8 (Json.num (Int.ofNat x)) =
          if 0 ≤ Int.ofNat x ∧ Int.ofNat x < 256 then .ok (Int.ofNat x).toNat
          else .error (.invalidType "u8") from rfl,
        if_pos hx, exceptBind_ok, ih', exceptBind_ok]
    simp

theorem decodeStringList_go_enc (ts : List String) :
    decodeStringList.go (ts.map Json.str) = .ok ts := by
  induction ts with
  | nil => rfl
  | cons t rest ih =>
    rw [List.map_cons]
    simp only [decodeStringList.go]
    rw [show decodeString (Json.str t) = .ok t from rfl, exceptBind_ok, ih, exceptBind_ok]

theorem decodeBytesList_go_enc (xss : List (List Nat)) (h : xss.all bytesWF = true) :
    decodeBytesList.go
      (xss.map fun xs => Json.arr (xs.map fun x => Json.num (Int.ofNat x))) = .ok xss := by
  induction xss with
  | nil => rfl
  | cons xs rest ih =>
    simp only [List.all_cons, Bool.and_eq_true] at h
    rw [List.map_cons]
    simp only [decodeBytesList.go]
    rw [show decodeBytes (Json.arr (xs.map fun x => Json.num (Int.ofNat x))) =
          decodeU8List (xs.map fun x => Json.num (Int.ofNat x)) from rfl,
        decodeU8List_enc xs h.1, exceptBind_ok, ih h.2, exceptBind_ok]

theorem decodeAVElems_enc (xs : List AttributeValue)
    (hrt : ∀ a ∈ xs, decodeAV (encodeAV a) = .ok a) :
    decodeAVElems (encodeAVElems xs) = .ok xs := by
  induction xs with
  | nil => rfl
  | cons a rest ih =>
    rw [show encodeAVElems (a :: rest) = encodeAV a :: encodeAVElems rest from rfl]
    rw [show decodeAVElems (encodeAV a :: encodeAVElems rest) =
          decodeAV (encodeAV a) >>= fun y =>
            decodeAVElems (encodeAVElems rest) >>= fun ys => Except.ok (y :: ys) from rfl]
    rw [hrt a (by simp), exceptBind_ok, ih (fun b hb => hrt b (by simp [hb])), exceptBind_ok]

theorem hasKey_append_single (acc : List (String × α)) (k k' : String) (a : α) :
    hasKey (acc ++ [(k, a)]) k' = (hasKey acc k' || decide (k = k')) := by
  simp [hasKey, List.any_append]

theorem decodeAVMapEntries_enc (kvs : List (String × AttributeValue)) :
    ∀ acc, nodupKeys kvs = true →
      (∀ kv ∈ kvs, hasKey acc kv.1 = false) →
      (∀ kv ∈ kvs, decodeAV (encodeAV kv.2) = .ok kv.2) →
      decodeAVMapEntries (encodeAVEntries kvs) acc = .ok (acc ++ kvs) := by
  induction kvs with
  | nil =>
    intro acc _ _ _
    simp [encodeAVEntries, decodeAVMapEntries]
  | cons kv rest ih =>
    intro acc hnd hfresh hrt
    obtain ⟨k, a⟩ := kv
    simp only [nodupKeys, Bool.and_eq_true, Bool.not_eq_true', List.any_eq_false,
      decide_eq_true_eq, decide_eq_false_iff_not] at hnd
    rw [show encodeAVEntries ((k, a) :: rest) = (k, encodeAV a) :: encodeAVEntries rest from rfl]
    rw [show decodeAVMapEntries ((k, encodeAV a) :: encodeAVEntries rest) acc =
          decodeAV (encodeAV a) >>= fun x =>
            decodeAVMapEntries (encodeAVEntries rest) (insertAssoc acc k x) from rfl]
    rw [hrt (k, a) (by simp), exceptBind_ok,
        insertAssoc_not_hasKey acc k a (hfresh (k, a) (by simp))]
    have hfresh' : ∀ kv ∈ rest, hasKey (acc ++ [(k, a)]) kv.1 = false := by
      intro kv hkv
      rw [hasKey_append_single]
      have h1 := hfresh kv (by simp [hkv])
      have h2 : ¬ (k = kv.1) := fun he => hnd.1 kv hkv he.symm
      simp [h1, h2]
    rw [ih (acc ++ [(k, a)]) hnd.2 hfresh' (fun kv hkv => hrt kv (by simp [hkv]))]
    simp

theorem decodeAV_encodeAV_of_WFAV (v : AttributeValue) (h : WFAV v) :
    decodeAV (encodeAV v) = .ok v := by
  induction h with
  | binary xs hb => exact decodeAV_B_arr _ xs (decodeU8List_enc xs hb)
  | boolean bv => rfl
  | binarySet xss hb => exact decodeAV_BS_arr _ xss (decodeBytesList_go_enc xss hb)
  | list xs hwf ih => exact decodeAV_L_arr _ xs (decodeAVElems_enc xs ih)
  | map kvs hk hwf ih =>
    have hm := decodeAVMapEntries_enc kvs [] hk (fun kv _ => rfl) ih
    exact decodeAV_M_obj _ kvs (by simpa using hm)
  | number t => rfl
  | numberSet ts => exact decodeAV_NS_arr _ ts (decodeStringList_go_enc ts)
  | nullval bv => rfl
  | stringval t => rfl
  | stringSet ts => exact decodeAV_SS_arr _ ts (decodeStringList_go_enc ts)

/-- Claim C1: for every well-formed TypedValue `v` (exactly one variant field
populated; byte payloads `u8`-valued; Lists and Maps nesting only well-formed
values to arbitrary finite depth), decoding the wire object produced by
encoding `v` yields `v` back.  The result is literal equality of the model
values, which implies the claim's unordered-over-keys map equality and
ordered list equality. -/
theorem claim_C1_encode_decode_roundtrip (v : AttributeValue) (h : WFAV v) :
    decodeAV (encodeAV v) = .ok v :=
  decodeAV_encodeAV_of_WFAV v h

/-- Witness for claim C1 at a concrete value nested three levels deep: a Map
holding a List holding a String and a Number. -/
theorem claim_C1_encode_decode_roundtrip_witness :
    decodeAV (encodeAV (.mk none none none none
        (some [("k",
          .mk none none none
            (some [.mk none none none none none none none none (some "x") none,
                   .mk none none none none none (some "1") none none none none])
            none none none none none none)])
        none none none none none)) =
      .ok (.mk none none none none
        (some [("k",
          .mk none none none
            (some [.mk none none none none none none none none (some "x") none,
                   .mk none none none none none (some "1") none none none none])
            none none none none none none)])
        none none none none none) :=
  claim_C1_encode_decode_roundtrip _
    (WFAV.map _ rfl (by
      intro kv hkv
      simp only [List.mem_singleton] at hkv
      subst hkv
      exact WFAV.list _ (by
        intro a ha
        simp only [List.mem_cons, List.not_mem_nil, or_false] at ha
        rcases ha with h1 | h2
        · subst h1; exact WFAV.stringval "x"
        · subst h2; exact WFAV.number "1")))

/-- Claim C2 counterexample: the wire object with both an S and an N key
decodes successfully (to a value with both fields populated) instead of
failing with an ambiguous-variant error, refuting the claimed
exactly-one-key enforcement. -/
theorem claim_C2_counterexample :
    decodeAV (Json.obj [("S", Json.str "x"), ("N", Json.str "1")]) =
      .ok (.mk none none none none none (some "1") none none (some "x") none) ∧
    ∀ e : DecodeError,
      decodeAV (Json.obj [("S", Json.str "x"), ("N", Json.str "1")]) ≠ .error e := by
  refine ⟨rfl, ?_⟩
  intro e h
  rw [show decodeAV (Json.obj [("S", Json.str "x"), ("N", Json.str "1")]) =
        .ok (.mk none none none none none (some "1") none none (some "x") none) from rfl] at h
  exact Except.noConfusion h

/-- Claim C2 amended: decoding enforces no exactly-one-variant rule and no
unknown-key rejection: the empty object decodes to the all-absent value,
an object with several recognized keys decodes with all of them populated,
an unrecognized key is skipped, and the only key-level failure is a repeated
recognized key, which fails with a duplicate-field error. -/
theorem claim_C2_amended :
    decodeAV (Json.obj []) = .ok AttributeValue.default ∧
    decodeAV (Json.obj [("S", Json.str "x"), ("N", Json.str "1")]) =
      .ok (.mk none none none none none (some "1") none none (some "x") none) ∧
    decodeAV (Json.obj [("X", Json.num 1)]) = .ok AttributeValue.default ∧
    decodeAV (Json.obj [("S", Json.str "x"), ("S", Json.str "y")]) =
      .error (.duplicateField "S") :=
  ⟨rfl, rfl, rfl, rfl⟩

/-- Claim C3 counterexample: the B payload is not treated as base64.
`{"B": "aGk="}` decodes to the four raw UTF-8 bytes of the text `"aGk="`
(97, 71, 107, 61), not to the two bytes of `"hi"` (104, 105), and
re-encoding does not reproduce the base64 text (it emits a byte-number
array). -/
theorem claim_C3_counterexample :
    decodeAV (Json.obj [("B", Json.str "aGk=")]) =
      .ok (.mk (some [97, 71, 107, 61]) none none none none none none none none none) ∧
    utf8Bytes "hi" = [104, 105] ∧
    decodeAV (Json.obj [("B", Json.str "aGk=")]) ≠
      .ok (.mk (some [104, 105]) none none none none none none none none none) ∧
    encodeAV (.mk (some [97, 71, 107, 61]) none none none none none none none none none) ≠
      Json.obj [("B", Json.str "aGk=")] := by
  refine ⟨rfl, rfl, ?_, ?_⟩
  · intro h
    rw [show decodeAV (Json.obj [("B", Json.str "aGk=")]) =
          .ok (.mk (some [97, 71, 107, 61])
            none none none none none none none none none) from rfl] at h
    simp at h
  · intro h
    rw [show encodeAV (.mk (some [97, 71, 107, 61])
          none none none none none none none none none) =
        Json.obj [("B", Json.arr [Json.num 97, Json.num 71, Json.num 107, Json.num 61])]
        from rfl] at h
    simp at h

/-- Claim C3 amended: a string B payload is taken as its raw UTF-8 bytes
verbatim (no base64 interpretation, hence no invalid-encoding failure for
any string payload); the empty string decodes to an empty (not absent) byte
sequence; re-encoding emits the bytes as a JSON array of numbers rather than
base64 text. -/
theorem claim_C3_amended :
    (∀ s : String, decodeAV (Json.obj [("B", Json.str s)]) =
      .ok (.mk (some (utf8Bytes s)) none none none none none none none none none)) ∧
    decodeAV (Json.obj [("B", Json.str "")]) =
      .ok (.mk (some []) none none none none none none none none none) ∧
    decodeAV (Json.obj [("B", Json.str "aGk=")]) =
      .ok (.mk (some [97, 71, 107, 61]) none none none none none none none none none) ∧
    encodeAV (.mk (some [97, 71, 107, 61]) none none none none none none none none none) =
      Json.obj [("B", Json.arr [Json.num 97, Json.num 71, Json.num 107, Json.num 61])] :=
  ⟨fun _ => rfl, rfl, rfl, rfl⟩

/-- Claim C5 counterexample: the N payload `"abc"` is outside every
decimal-number lexical form, yet decoding succeeds and stores it verbatim,
refuting the claimed lexical validation. -/
theorem claim_C5_counterexample :
    decodeAV (Json.obj [("N", Json.str "abc")]) =
      .ok (.mk none none none none none (some "abc") none none none none) ∧
    ∀ e : DecodeError, decodeAV (Json.obj [("N", Json.str "abc")]) ≠ .error e := by
  refine ⟨rfl, ?_⟩
  intro e h
  rw [show decodeAV (Json.obj [("N", Json.str "abc")]) =
        .ok (.mk none none none none none (some "abc") none none none none) from rfl] at h
  exact Except.noConfusion h

/-- Claim C5 amended: an N payload need only be a JSON string — any string
whatsoever is accepted and stored verbatim, with no decimal lexical
validation; a non-string payload fails with a type error; NS likewise
accepts any list of JSON strings and rejects non-string elements. -/
theorem claim_C5_amended :
    (∀ s : String, decodeAV (Json.obj [("N", Json.str s)]) =
      .ok (.mk none none none none none (some s) none none none none)) ∧
    decodeAV (Json.obj [("N", Json.num 1)]) = .error (.invalidType "a string") ∧
    decodeAV (Json.obj [("N", Json.bool true)]) = .error (.invalidType "a string") ∧
    (∀ ts : List String, decodeAV (Json.obj [("NS", Json.arr (ts.map Json.str))]) =
      .ok (.mk none none none none none none (some ts) none none none)) ∧
    decodeAV (Json.obj [("NS", Json.arr [Json.str "1", Json.num 2])]) =
      .error (.invalidType "a string") :=
  ⟨fun _ => rfl, rfl, rfl,
   fun ts => decodeAV_NS_arr _ ts (decodeStringList_go_enc ts), rfl⟩

/-- Claim C6: numeric text is preserved with byte-exact fidelity — for every
N payload string, decoding then encoding reproduces the identical wire
object, and in particular for the 31-character decimal
`"123456789012345678901234567890.5"`; the payload is stored as a string,
never parsed into a bounded numeric type. -/
theorem claim_C6_numeric_fidelity :
    (∀ s : String,
      (decodeAV (Json.obj [("N", Json.str s)])).map encodeAV =
        .ok (Json.obj [("N", Json.str s)])) ∧
    (decodeAV (Json.obj [("N", Json.str "123456789012345678901234567890.5")])).map encodeAV =
      .ok (Json.obj [("N", Json.str "123456789012345678901234567890.5")]) :=
  ⟨fun _ => rfl, rfl⟩

/-- Claim C10: the representation admits zero populated variants (the
`Default` value), which encodes to the empty wire object and is returned by
decoding the empty wire object; it also admits several populated variants
(e.g. decoding an object with both BOOL and NULL keys), so the
exactly-one-active-variant invariant is not enforced by construction or at
the encode/decode boundary. -/
theorem claim_C10_default_no_invariant :
    encodeAV AttributeValue.default = Json.obj [] ∧
    decodeAV (Json.obj []) = .ok AttributeValue.default ∧
    decodeAV (Json.obj [("BOOL", Json.bool true), ("NULL", Json.bool true)]) =
      .ok (.mk none (some true) none none none none none (some true) none none) :=
  ⟨rfl, rfl, rfl⟩

/-- Claim C4: operation-kind parsing is a closed mapping — exactly the three
literal strings INSERT, MODIFY, REMOVE decode, every other string fails with
the unknown-variant error (which the specification names
UnsupportedOperationKind), with no default or fallback kind; and a full
change record carrying eventName UPDATE fails the same way. -/
theorem claim_C4_closed_operation_kinds :
    decodeOperationType (Json.str "INSERT") = .ok .insert ∧
    decodeOperationType (Json.str "MODIFY") = .ok .modify ∧
    decodeOperationType (Json.str "REMOVE") = .ok .remove ∧
    (∀ s : String, s ≠ "INSERT" → s ≠ "MODIFY" → s ≠ "REMOVE" →
      decodeOperationType (Json.str s) = .error (.unknownVariant s)) ∧
    (∀ region eid esrc ever earn seq view : String,
      decodeEventRecord (Json.obj
        [("awsRegion", Json.str region),
         ("dynamodb", Json.obj
            [("SequenceNumber", Json.str seq),
             ("SizeBytes", Json.num 26),
             ("StreamViewType", Json.str view)]),
         ("eventID", Json.str eid),
         ("eventName", Json.str "UPDATE"),
         ("eventSource", Json.str esrc),
         ("eventVersion", Json.str ever),
         ("eventSourceARN", Json.str earn)]) =
        .error (.unknownVariant "UPDATE")) := by
  refine ⟨rfl, rfl, rfl, ?_, fun region eid esrc ever earn seq view => rfl⟩
  intro s h1 h2 h3
  simp only [decodeOperationType, if_neg h1, if_neg h2, if_neg h3]

/-- Witness for claim C4 at the concrete unknown operation kind UPDATE. -/
theorem claim_C4_closed_operation_kinds_witness :
    decodeOperationType (Json.str "UPDATE") = .error (.unknownVariant "UPDATE") :=
  claim_C4_closed_operation_kinds.2.2.2.1 "UPDATE" (by decide) (by decide) (by decide)

theorem lookupAssoc_insertAssoc (m : List (String × α)) (k k' : String) (a : α) :
    lookupAssoc (insertAssoc m k a) k' = if k = k' then some a else lookupAssoc m k' := by
  induction m with
  | nil => simp [insertAssoc, lookupAssoc]
  | cons kv rest ih =>
    obtain ⟨k0, v0⟩ := kv
    by_cases h0 : k0 = k
    · subst h0
      by_cases h1 : k0 = k' <;> simp [insertAssoc, lookupAssoc, h1]
    · by_cases h1 : k0 = k'
      · subst h1
        have hkk : ¬ k = k0 := fun he => h0 he.symm
        simp [insertAssoc, h0, lookupAssoc, hkk]
      · simp [insertAssoc, h0, lookupAssoc, h1, ih]

theorem decodeAVMapEntries_lookup (entries : List (String × Json)) :
    ∀ acc, (∀ kv ∈ entries, ∃ a, decodeAV kv.2 = .ok a) →
      ∃ m, decodeAVMapEntries entries acc = .ok m ∧
        ∀ k, lookupAssoc m k =
          match lastBinding entries k with
          | some j => (decodeAV j).toOption
          | none => lookupAssoc acc k := by
  induction entries with
  | nil => exact fun acc _ => ⟨acc, rfl, fun k => by simp [lastBinding]⟩
  | cons kv rest ih =>
    intro acc hdec
    obtain ⟨k0, j0⟩ := kv
    obtain ⟨a0, ha0⟩ := hdec (k0, j0) (by simp)
    obtain ⟨m, hm, hlook⟩ :=
      ih (insertAssoc acc k0 a0) (fun kv hkv => hdec kv (by simp [hkv]))
    refine ⟨m, ?_, ?_⟩
    · rw [show decodeAVMapEntries ((k0, j0) :: rest) acc =
            decodeAV j0 >>= fun a => decodeAVMapEntries rest (insertAssoc acc k0 a) from rfl,
          ha0, exceptBind_ok, hm]
    · intro k
      have hk := hlook k
      cases hl : lastBinding rest k with
      | some j =>
        rw [hl] at hk
        simp only [lastBinding, hl]
        exact hk
      | none =>
        rw [hl] at hk
        have hk' : lookupAssoc m k = lookupAssoc (insertAssoc acc k0 a0) k := hk
        simp only [lastBinding, hl]
        rw [hk', lookupAssoc_insertAssoc]
        by_cases hkk : k0 = k
        · rw [if_pos hkk, if_pos hkk]
          show some a0 = (decodeAV j0).toOption
          rw [show decodeAV j0 = .ok a0 from ha0]
          rfl
        · rw [if_neg hkk, if_neg hkk]

/-- Claim C7: when a Map wire object repeats an attribute name, decoding
succeeds (provided each value decodes) rather than raising an error, and the
resulting map binds each name to the decoded value of its last occurrence in
the wire object. -/
theorem claim_C7_duplicate_keys_last_wins (entries : List (String × Json))
    (hdec : ∀ kv ∈ entries, ∃ a, decodeAV kv.2 = .ok a) :
    ∃ m, decodeAVMap (Json.obj entries) = .ok m ∧
      ∀ k, lookupAssoc m k = (lastBinding entries k).bind fun j => (decodeAV j).toOption := by
  obtain ⟨m, hm, hlook⟩ := decodeAVMapEntries_lookup entries [] hdec
  refine ⟨m, hm, fun k => ?_⟩
  have hk := hlook k
  cases hl : lastBinding entries k with
  | some j => rw [hl] at hk; simp [hk]
  | none => rw [hl] at hk; simp [hk, lookupAssoc]

/-- Witness for claim C7: a map repeating the attribute name `"a"` decodes
successfully and binds `"a"` to the value of the second (last) occurrence. -/
theorem claim_C7_duplicate_keys_last_wins_witness :
    ∃ m, decodeAVMap (Json.obj [("a", Json.obj [("S", Json.str "x")]),
                                ("a", Json.obj [("S", Json.str "y")])]) = .ok m ∧
      ∀ k, lookupAssoc m k =
        (lastBinding [("a", Json.obj [("S", Json.str "x")]),
                      ("a", Json.obj [("S", Json.str "y")])] k).bind
          fun j => (decodeAV j).toOption :=
  claim_C7_duplicate_keys_last_wins _ (by
    intro kv hkv
    simp only [List.mem_cons, List.not_mem_nil, or_false] at hkv
    rcases hkv with h | h <;> subst h <;> exact ⟨_, rfl⟩)

/-- Claim C8: a change-record document lacking one of the required scalar
fields eventID, eventVersion, SequenceNumber, SizeBytes, or StreamViewType
fails to decode with the missing-field error naming that field (which the
specification names MissingRequiredField), for every choice of the remaining
field values; no record value is returned. -/
theorem claim_C8_missing_required_fields
    (region eid esrc ever earn seq view : String) :
    decodeEventRecord (Json.obj
      [("awsRegion", Json.str region),
       ("dynamodb", Json.obj
          [("SequenceNumber", Json.str seq),
           ("SizeBytes", Json.num 26),
           ("StreamViewType", Json.str view)]),
       ("eventName", Json.str "INSERT"),
       ("eventSource", Json.str esrc),
       ("eventVersion", Json.str ever),
       ("eventSourceARN", Json.str earn)]) =
      .error (.missingField "eventID") ∧
    decodeEventRecord (Json.obj
      [("awsRegion", Json.str region),
       ("dynamodb", Json.obj
          [("SequenceNumber", Json.str seq),
           ("SizeBytes", Json.num 26),
           ("StreamViewType", Json.str view)]),
       ("eventID", Json.str eid),
       ("eventName", Json.str "INSERT"),
       ("eventSource", Json.str esrc),
       ("eventSourceARN", Json.str earn)]) =
      .error (.missingField "eventVersion") ∧
    decodeEventRecord (Json.obj
      [("awsRegion", Json.str region),
       ("dynamodb", Json.obj
          [("SizeBytes", Json.num 26),
           ("StreamViewType", Json.str view)]),
       ("eventID", Json.str eid),
       ("eventName", Json.str "INSERT"),
       ("eventSource", Json.str esrc),
       ("eventVersion", Json.str ever),
       ("eventSourceARN", Json.str earn)]) =
      .error (.missingField "SequenceNumber") ∧
    decodeEventRecord (Json.obj
      [("awsRegion", Json.str region),
       ("dynamodb", Json.obj
          [("SequenceNumber", Json.str seq),
           ("StreamViewType", Json.str view)]),
       ("eventID", Json.str eid),
       ("eventName", Json.str "INSERT"),
       ("eventSource", Json.str esrc),
       ("eventVersion", Json.str ever),
       ("eventSourceARN", Json.str earn)]) =
      .error (.missingField "SizeBytes") ∧
    decodeEventRecord (Json.obj
      [("awsRegion", Json.str region),
       ("dynamodb", Json.obj
          [("SequenceNumber", Json.str seq),
           ("SizeBytes", Json.num 26)]),
       ("eventID", Json.str eid),
       ("eventName", Json.str "INSERT"),
       ("eventSource", Json.str esrc),
       ("eventVersion", Json.str ever),
       ("eventSourceARN", Json.str earn)]) =
      .error (.missingField "StreamViewType") :=
  ⟨rfl, rfl, rfl, rfl, rfl⟩

/-- Claim C9: the routed-envelope fixture document of scenario B, decoded
with the detail type bound to the two-field EC2 state-change record, decodes
successfully with every field equal to the fixture value. -/
theorem claim_C9_eventbridge_fixture :
    decodeEventBridge decodeEC2Detail eventBridgeFixture =
      .ok { id := "6a7e8feb-b491-4cf7-a9f1-bf3703467718",
            version := "0",
            account := "123456789012",
            time := "2017-12-22T18:43:48Z",
            region := "us-west-1",
            resources := ["arn:aws:ec2:us-west-1:123456789012:instance/i-1234567890abcdef0"],
            source := "aws.ec2",
            detail_type := "EC2 Instance State-change Notification",
            detail := { instance_id := "i-1234567890abcdef0", state := "terminated" } } := rfl
